import Mathlib

/-!
Verification of the conic WebRTC signaling relay.

This file gives a shallow embedding of the core data model and operations of
the repository: the JSON envelope codec (`domain.Message` with Go
`encoding/json` semantics), the handler registry and router
(`registry.DefaultHandlerRegistry`, `signal` handlers), the per-peer
connection engine (`websocket.Connection`), the hub (`hub.Hub`), and the
configuration validator (`internal/config`).  Machine integers are modelled
as `Int`/`Nat`; fallible operations return `Option`; the concurrent parts
are modelled as sequential state-passing functions, one per Go method, with
the `select` statements resolved in source order (which agrees with Go
whenever at most one case is ready).
-/

namespace Conic

/-! ### JSON values

`encoding/json` is the envelope codec.  A JSON value is modelled as a tree;
numbers keep their literal text, mirroring how `json.RawMessage` carries
number tokens verbatim through the relay. -/

inductive Json where
  | null
  | bool (b : Bool)
  | num (lit : String)
  | str (s : String)
  | arr (elems : List Json)
  | obj (fields : List (String × Json))
deriving Inhabited

/-- The character `\x7b` (left curly brace). -/
def lbrace : Char := Char.ofNat 123

/-- The character `\x7d` (right curly brace). -/
def rbrace : Char := Char.ofNat 125

def hexDigit (n : Nat) : Char :=
  if n < 10 then Char.ofNat (48 + n) else Char.ofNat (97 + (n - 10))

/-- Escape one character the way Go `encoding/json` renders string contents
(HTML escaping on, as in `json.Marshal`). -/
def escChar (c : Char) : String :=
  if c = '"' then "\\\""
  else if c = '\\' then "\\\\"
  else if c = '\n' then "\\n"
  else if c = '\r' then "\\r"
  else if c = '\t' then "\\t"
  else if c = '<' then "\\u003c"
  else if c = '>' then "\\u003e"
  else if c = '&' then "\\u0026"
  else if c.toNat < 32 then
    String.mk ['\\', 'u', '0', '0', hexDigit (c.toNat / 16), hexDigit (c.toNat % 16)]
  else String.mk [c]

def renderString (s : String) : String :=
  "\"" ++ String.join (s.toList.map escChar) ++ "\""

def joinComma : List String → String
  | [] => ""
  | [x] => x
  | x :: xs => x ++ "," ++ joinComma xs

/-- Compact rendering of a JSON value, fuelled so that recursion is
structural and kernel-reducible.  The fuel only limits nesting depth. -/
def renderJson : Nat → Json → String
  | 0, _ => ""
  | fuel + 1, j =>
    match j with
    | .null => "null"
    | .bool b => if b then "true" else "false"
    | .num l => l
    | .str s => renderString s
    | .arr es => "[" ++ joinComma (es.map (renderJson fuel)) ++ "]"
    | .obj fs =>
        String.mk [lbrace]
          ++ joinComma (fs.map (fun kv => renderString kv.1 ++ ":" ++ renderJson fuel kv.2))
          ++ String.mk [rbrace]

/-- Depth bound for rendering; fuel is spent once per nesting level only, so
this bound is unreachable by any value the system handles. -/
def renderFuel : Nat := 1000000

def Json.render (j : Json) : String := renderJson renderFuel j

/-! ### JSON parsing (Go `json.Unmarshal`, value layer) -/

def isWs (c : Char) : Bool := c = ' ' || c = '\n' || c = '\t' || c = '\r'

def skipWs : List Char → List Char
  | [] => []
  | c :: cs => if isWs c then skipWs cs else c :: cs

def hexVal (c : Char) : Option Nat :=
  if '0' ≤ c && c ≤ '9' then some (c.toNat - 48)
  else if 'a' ≤ c && c ≤ 'f' then some (c.toNat - 97 + 10)
  else if 'A' ≤ c && c ≤ 'F' then some (c.toNat - 65 + 10)
  else none

/-- Decode a single-character escape (`\"`, `\\`, `\/`, `\n`, `\r`, `\t`,
`\b`, `\f`); the self-representing ones come first. -/
def unescChar (e : Char) : Option Char :=
  if e = '"' || e = '\\' || e = '/' then some e
  else if e = 'n' then some '\n'
  else if e = 'r' then some '\r'
  else if e = 't' then some '\t'
  else if e = 'b' then some (Char.ofNat 8)
  else if e = 'f' then some (Char.ofNat 12)
  else none

/-- Parse the body of a JSON string after the opening quote. -/
def parseStringBody : List Char → List Char → Option (String × List Char)
  | _, [] => none
  | acc, c :: rest =>
    if c = '"' then some (String.mk acc.reverse, rest)
    else if c = '\\' then
      match rest with
      | [] => none
      | e :: rest2 =>
        if e = 'u' then
          match rest2 with
          | a :: b :: c2 :: d :: rest3 =>
            match hexVal a, hexVal b, hexVal c2, hexVal d with
            | some va, some vb, some vc, some vd =>
                parseStringBody (Char.ofNat (((va * 16 + vb) * 16 + vc) * 16 + vd) :: acc) rest3
            | _, _, _, _ => none
          | _ => none
        else
          match unescChar e with
          | some ch => parseStringBody (ch :: acc) rest2
          | none => none
    else parseStringBody (c :: acc) rest

def isNumChar (c : Char) : Bool :=
  c.isDigit || c = '-' || c = '+' || c = '.' || c = 'e' || c = 'E'

def takeNumLit : List Char → List Char × List Char
  | [] => ([], [])
  | c :: rest =>
    if isNumChar c then
      let p := takeNumLit rest
      (c :: p.1, p.2)
    else ([], c :: rest)

/-- Parse a comma-separated member list of an object, given a parser `pv` for
values; the fuel bounds the number of members. -/
def parseMembers (pv : List Char → Option (Json × List Char)) :
    Nat → List Char → Option (List (String × Json) × List Char)
  | 0, _ => none
  | n + 1, cs =>
    match skipWs cs with
    | [] => none
    | c :: rest =>
      if c = rbrace then some ([], rest)
      else if c = '"' then
        match parseStringBody [] rest with
        | none => none
        | some (k, r1) =>
          match skipWs r1 with
          | ':' :: r2 =>
            match pv r2 with
            | none => none
            | some (v, r3) =>
              match skipWs r3 with
              | [] => none
              | c2 :: r4 =>
                if c2 = ',' then
                  match parseMembers pv n r4 with
                  | some (ms, r5) => some ((k, v) :: ms, r5)
                  | none => none
                else if c2 = rbrace then some ([(k, v)], r4)
                else none
          | _ => none
      else none

/-- Parse a comma-separated element list of an array. -/
def parseElems (pv : List Char → Option (Json × List Char)) :
    Nat → List Char → Option (List Json × List Char)
  | 0, _ => none
  | n + 1, cs =>
    match skipWs cs with
    | [] => none
    | c :: rest =>
      if c = ']' then some ([], rest)
      else
        match pv (c :: rest) with
        | none => none
        | some (v, r1) =>
          match skipWs r1 with
          | [] => none
          | c2 :: r2 =>
            if c2 = ',' then
              match parseElems pv n r2 with
              | some (vs, r3) => some (v :: vs, r3)
              | none => none
            else if c2 = ']' then some ([v], r2)
            else none

/-- Parse one JSON value; the fuel bounds nesting depth and is structural. -/
def parseValue : Nat → List Char → Option (Json × List Char)
  | 0, _ => none
  | fuel + 1, cs =>
    match skipWs cs with
    | [] => none
    | 'n' :: 'u' :: 'l' :: 'l' :: rest => some (.null, rest)
    | 't' :: 'r' :: 'u' :: 'e' :: rest => some (.bool true, rest)
    | 'f' :: 'a' :: 'l' :: 's' :: 'e' :: rest => some (.bool false, rest)
    | c :: rest =>
      if c = '"' then
        match parseStringBody [] rest with
        | some (s, r) => some (.str s, r)
        | none => none
      else if c = lbrace then
        match parseMembers (parseValue fuel) (rest.length + 1) rest with
        | some (ms, r) => some (.obj ms, r)
        | none => none
      else if c = '[' then
        match parseElems (parseValue fuel) (rest.length + 1) rest with
        | some (vs, r) => some (.arr vs, r)
        | none => none
      else if c.isDigit || c = '-' then
        let p := takeNumLit (c :: rest)
        some (.num (String.mk p.1), p.2)
      else none

/-- Parse a complete JSON document (whole input must be consumed). -/
def parseJson (s : String) : Option Json :=
  match parseValue (s.length + 1) s.toList with
  | some (j, rest) => if skipWs rest = [] then some j else none
  | none => none

/-! ### The envelope: `domain.Message`

```go
type Message struct {
    ID        string          `json:"id"`
    Type      MessageType     `json:"type"`
    Timestamp time.Time       `json:"timestamp"`
    Data      json.RawMessage `json:"data"`
}
```

`MessageType` is a bare string type (no validation on unmarshal), so `type`
is modelled as `String`.  `Timestamp` is modelled by its RFC 3339 text: Go
re-renders a parsed `time.Time` in RFC3339Nano form, which is the identity
on canonical texts; decoding validates the text the way `time.Time`'s
unmarshaller does.  `Data` is a `json.RawMessage`: any JSON value, carried
opaquely. -/

structure Message where
  id : String
  type : String
  timestamp : String
  data : Json

def MessageTypeRegisterRequest : String := "register_request"
def MessageTypeRegisterResponse : String := "register_response"
def MessageTypeSDP : String := "sdp"
def MessageTypeCandidate : String := "candidate"
def MessageTypeDataChannel : String := "data_channel"

/-- What `json.Marshal` of the zero `time.Time` prints; the decoded default
when the `timestamp` field is absent. -/
def zeroTimestamp : String := "0001-01-01T00:00:00Z"

def digit2 (a b : Char) : Option Nat :=
  if a.isDigit && b.isDigit then some ((a.toNat - 48) * 10 + (b.toNat - 48)) else none

def allDigits (cs : List Char) : Bool := cs.all Char.isDigit

/-- Trailing part of an RFC 3339 text after the seconds: optional fraction,
then `Z` or a `±hh:mm` offset. -/
def validZoneTail (cs : List Char) : Bool :=
  match cs with
  | ['Z'] => true
  | c :: h1 :: h2 :: ':' :: m1 :: m2 :: [] =>
    (c = '+' || c = '-') &&
      (match digit2 h1 h2, digit2 m1 m2 with
       | some hh, some mm => hh ≤ 23 && mm ≤ 59
       | _, _ => false)
  | _ => false

def validFracTail (cs : List Char) : Bool :=
  match cs with
  | '.' :: rest =>
    let p := rest.takeWhile Char.isDigit
    !p.isEmpty && validZoneTail (rest.dropWhile Char.isDigit)
  | _ => validZoneTail cs

/-- Success predicate of Go's `time.Time` JSON unmarshaller on the quoted
text (RFC 3339; ranges checked as by `time.Parse`, with the day bound
simplified to 1–31). -/
def isValidRFC3339 (s : String) : Bool :=
  match s.toList with
  | y1 :: y2 :: y3 :: y4 :: '-' :: mo1 :: mo2 :: '-' :: d1 :: d2 :: 'T' ::
      h1 :: h2 :: ':' :: mi1 :: mi2 :: ':' :: s1 :: s2 :: rest =>
    allDigits [y1, y2, y3, y4] &&
      (match digit2 mo1 mo2, digit2 d1 d2, digit2 h1 h2, digit2 mi1 mi2, digit2 s1 s2 with
       | some mo, some d, some h, some mi, some ss =>
         1 ≤ mo && mo ≤ 12 && 1 ≤ d && d ≤ 31 && h ≤ 23 && mi ≤ 59 && ss ≤ 59
       | _, _, _, _, _ => false) &&
      validFracTail rest
  | _ => false

/-- Go map semantics for duplicate keys in one object: the later value wins. -/
def lookupLast (fields : List (String × Json)) (k : String) : Option Json :=
  fields.foldl (fun acc kv => if kv.1 = k then some kv.2 else acc) none

/-- Unmarshal one string-typed struct field: absent or `null` leaves the zero
value, a string is taken, any other value is a type error. -/
def getStrField (fields : List (String × Json)) (k dflt : String) : Option String :=
  match lookupLast fields k with
  | none => some dflt
  | some .null => some dflt
  | some (.str s) => some s
  | some _ => none

def getTimestampField (fields : List (String × Json)) : Option String :=
  match lookupLast fields "timestamp" with
  | none => some zeroTimestamp
  | some .null => some zeroTimestamp
  | some (.str s) => if isValidRFC3339 s then some s else none
  | some _ => none

def getDataField (fields : List (String × Json)) : Json :=
  match lookupLast fields "data" with
  | none => .null
  | some v => v

/-- `json.Marshal` of a `domain.Message`: an object with the four tagged
fields in struct order.  Total (the payload is a JSON value by typing). -/
def encodeMessage (m : Message) : Json :=
  .obj [("id", .str m.id), ("type", .str m.type),
        ("timestamp", .str m.timestamp), ("data", m.data)]

/-- `json.Unmarshal` into a `domain.Message`: the document must be an object;
present fields must have the right shape; absent fields keep zero values;
unknown keys are ignored. -/
def decodeMessage (j : Json) : Option Message :=
  match j with
  | .obj fields =>
    match getStrField fields "id" "", getStrField fields "type" "",
        getTimestampField fields with
    | some i, some t, some ts => some ⟨i, t, ts, getDataField fields⟩
    | _, _, _ => none
  | _ => none

/-! ### Typed payloads

Each relay handler unmarshals the payload into its full typed struct
(`domain.SDPMessage`, `domain.ICECandidateMessage`,
`domain.DataChannelMessage`), so every field is type-checked even though the
handler only uses `to_id` afterwards.  `null` unmarshals as a no-op leaving
the zero value, at any nesting level. -/

/-- `webrtc.SessionDescription`: `Type SDPType` + `SDP string`.  `SDPType`'s
unmarshaller reads any JSON string and maps unrecognized tags to the unknown
type without error (here the unknown/zero type is written `""`); a
non-string, non-null `type` value is an error. -/
structure SessionDescription where
  type : String
  sdp : String
deriving DecidableEq

/-- `webrtc.NewSDPType`: the four known tags map to themselves, everything
else to unknown. -/
def newSDPType (s : String) : String :=
  if s = "offer" || s = "pranswer" || s = "answer" || s = "rollback" then s
  else ""

def getSDPTypeField (fields : List (String × Json)) : Option String :=
  match lookupLast fields "type" with
  | none => some ""
  | some .null => some ""
  | some (.str s) => some (newSDPType s)
  | some _ => none

def decodeSessionDescription (j : Json) : Option SessionDescription :=
  match j with
  | .null => some ⟨"", ""⟩
  | .obj fields =>
    match getSDPTypeField fields, getStrField fields "sdp" "" with
    | some t, some sdp => some ⟨t, sdp⟩
    | _, _ => none
  | _ => none

/-- `domain.SDPMessage`: `from_id`, `to_id`, `session_description`. -/
structure SDPMessage where
  fromID : String
  toID : String
  sessionDescription : SessionDescription
deriving DecidableEq

def decodeSDPMessage (d : Json) : Option SDPMessage :=
  match d with
  | .null => some ⟨"", "", ⟨"", ""⟩⟩
  | .obj fields =>
    match getStrField fields "from_id" "", getStrField fields "to_id" "",
      (match lookupLast fields "session_description" with
       | none => some (⟨"", ""⟩ : SessionDescription)
       | some v => decodeSessionDescription v) with
    | some f, some t, some sd => some ⟨f, t, sd⟩
    | _, _, _ => none
  | _ => none

/-- Unmarshal a `*string` field: absent or `null` leaves the nil pointer. -/
def getPtrStrField (fields : List (String × Json)) (k : String) :
    Option (Option String) :=
  match lookupLast fields k with
  | none => some none
  | some .null => some none
  | some (.str s) => some (some s)
  | some _ => none

/-- A JSON number literal as an unsigned decimal integer, the way
`encoding/json` feeds unsigned kinds (a sign, fraction or exponent in the
literal is a conversion error). -/
def numLitToNat (lit : String) : Option Nat :=
  let cs := lit.toList
  if !cs.isEmpty && cs.all Char.isDigit then
    some (cs.foldl (fun acc c => acc * 10 + (c.toNat - 48)) 0)
  else none

/-- Unmarshal a `*uint16` field; overflow past 65535 is an error. -/
def getUInt16PtrField (fields : List (String × Json)) (k : String) :
    Option (Option Nat) :=
  match lookupLast fields k with
  | none => some none
  | some .null => some none
  | some (.num lit) =>
    match numLitToNat lit with
    | some n => if n ≤ 65535 then some (some n) else none
    | none => none
  | some _ => none

/-- `webrtc.ICECandidateInit`: `candidate string`, `sdpMid *string`,
`sdpMLineIndex *uint16`, `usernameFragment *string`. -/
structure ICECandidateInit where
  candidate : String
  sdpMid : Option String
  sdpMLineIndex : Option Nat
  usernameFragment : Option String
deriving DecidableEq

def decodeICECandidateInit (j : Json) : Option ICECandidateInit :=
  match j with
  | .null => some ⟨"", none, none, none⟩
  | .obj fields =>
    match getStrField fields "candidate" "", getPtrStrField fields "sdpMid",
      getUInt16PtrField fields "sdpMLineIndex",
      getPtrStrField fields "usernameFragment" with
    | some c, some mid, some idx, some uf => some ⟨c, mid, idx, uf⟩
    | _, _, _, _ => none
  | _ => none

/-- `domain.ICECandidateMessage`: `from_id`, `to_id`, `candidate`. -/
structure ICECandidateMessage where
  fromID : String
  toID : String
  candidate : ICECandidateInit
deriving DecidableEq

def decodeICECandidateMessage (d : Json) : Option ICECandidateMessage :=
  match d with
  | .null => some ⟨"", "", ⟨"", none, none, none⟩⟩
  | .obj fields =>
    match getStrField fields "from_id" "", getStrField fields "to_id" "",
      (match lookupLast fields "candidate" with
       | none => some (⟨"", none, none, none⟩ : ICECandidateInit)
       | some v => decodeICECandidateInit v) with
    | some f, some t, some c => some ⟨f, t, c⟩
    | _, _, _ => none
  | _ => none

/-- The base64 alphabet of `base64.StdEncoding`. -/
def b64Val (c : Char) : Option Nat :=
  if 'A' ≤ c && c ≤ 'Z' then some (c.toNat - 65)
  else if 'a' ≤ c && c ≤ 'z' then some (c.toNat - 97 + 26)
  else if c.isDigit then some (c.toNat - 48 + 52)
  else if c = '+' then some 62
  else if c = '/' then some 63
  else none

/-- Decode base64 four characters at a time; `=` padding may close only the
final quantum, and the input length must be a multiple of four.  (Trailing
bits are not checked — `StdEncoding` is non-strict.) -/
def base64DecodeQuanta : List Char → Option (List Nat)
  | [] => some []
  | a :: b :: c :: d :: rest =>
    match b64Val a, b64Val b with
    | some va, some vb =>
      if c = '=' then
        if d = '=' && rest = [] then some [va * 4 + vb / 16]
        else none
      else
        match b64Val c with
        | some vc =>
          if d = '=' then
            if rest = [] then some [va * 4 + vb / 16, (vb % 16) * 16 + vc / 4]
            else none
          else
            match b64Val d with
            | some vd =>
              match base64DecodeQuanta rest with
              | some bs =>
                some ([va * 4 + vb / 16, (vb % 16) * 16 + vc / 4,
                       (vc % 4) * 64 + vd] ++ bs)
              | none => none
            | none => none
        | none => none
    | _, _ => none
  | _ => none

/-- `base64.StdEncoding` decoding as `encoding/json` invokes it for `[]byte`
fields; the decoder skips CR and LF anywhere in the input. -/
def base64Decode (s : String) : Option (List Nat) :=
  base64DecodeQuanta (s.toList.filter (fun c => c != '\r' && c != '\n'))

/-- One element of a JSON array decoded into a `uint8` slice element:
integers 0–255 (`null` leaves the zero element). -/
def jsonElemToByte (j : Json) : Option Nat :=
  match j with
  | .null => some 0
  | .num lit =>
    match numLitToNat lit with
    | some n => if n ≤ 255 then some n else none
    | none => none
  | _ => none

def elemsToBytes : List Json → Option (List Nat)
  | [] => some []
  | e :: es =>
    match jsonElemToByte e, elemsToBytes es with
    | some b, some bs => some (b :: bs)
    | _, _ => none

/-- Unmarshal a `[]byte` field: a base64 string, a JSON array of byte-sized
integers, or absent/`null` for the nil slice. -/
def getBytesField (fields : List (String × Json)) (k : String) :
    Option (List Nat) :=
  match lookupLast fields k with
  | none => some []
  | some .null => some []
  | some (.str s) => base64Decode s
  | some (.arr es) => elemsToBytes es
  | some _ => none

/-- `domain.DataChannelMessage`: `from_id`, `to_id`, `label`, `payload`. -/
structure DataChannelMessage where
  fromID : String
  toID : String
  label : String
  payload : List Nat
deriving DecidableEq

def decodeDataChannelMessage (d : Json) : Option DataChannelMessage :=
  match d with
  | .null => some ⟨"", "", "", []⟩
  | .obj fields =>
    match getStrField fields "from_id" "", getStrField fields "to_id" "",
      getStrField fields "label" "", getBytesField fields "payload" with
    | some f, some t, some l, some p => some ⟨f, t, l, p⟩
    | _, _, _, _ => none
  | _ => none

/-- `client_id` of a `RegisterRequest` payload. -/
def registerClientID (d : Json) : Option String :=
  match d with
  | .null => some ""
  | .obj fields => getStrField fields "client_id" ""
  | _ => none

/-! ### Connection engine (`websocket.Connection`)

State visible to `Send`/`Close`: the `closed` flag (mutex-guarded), the
connection context cancellation, whether `sendChan` has been closed, and the
buffered contents of `sendChan` (capacity 256).  `Send`'s `select` is
resolved in source order — caller context, connection context, then the
non-blocking channel offer with the `default` branch — which matches Go
whenever at most one case is ready (the situations all claims are about). -/

abbrev Frame := String

/-- `make(chan []byte, 256)` in `NewConnection`. -/
def sendChanCapacity : Nat := 256

structure Connection where
  closed : Bool
  ctxDone : Bool
  chanClosed : Bool
  sendChan : List Frame
deriving DecidableEq

/-- A fresh connection from `NewConnection`. -/
def Connection.new : Connection :=
  { closed := false, ctxDone := false, chanClosed := false, sendChan := [] }

inductive SendResult where
  /-- `errors.New("connection is closed")` -/
  | errClosed
  /-- `ctx.Err()` for the caller's context -/
  | errCtx
  /-- `errors.New("connection context done")` -/
  | errConnCtx
  /-- `errors.New("send channel full or blocked")` -/
  | errQueueFull
  | ok
deriving DecidableEq

/-- `Connection.Send`: check the closed flag under the read lock, then offer
the frame to `sendChan` without blocking. -/
def Connection.send (c : Connection) (callerCtxDone : Bool) (message : Frame) :
    SendResult × Connection :=
  if c.closed then (.errClosed, c)
  else if callerCtxDone then (.errCtx, c)
  else if c.ctxDone then (.errConnCtx, c)
  else if c.sendChan.length < sendChanCapacity then
    (.ok, { c with sendChan := c.sendChan ++ [message] })
  else (.errQueueFull, c)

/-- `Connection.Close`: idempotent; sets the flag, cancels the context,
closes the send channel and the transport socket. -/
def Connection.close (c : Connection) : Connection :=
  if c.closed then c
  else { c with closed := true, ctxDone := true, chanClosed := true }

/-! ### Handler registry and router

`registry.DefaultHandlerRegistry` holds a map from message type to handler;
`router.Router.Handle` just delegates to it.  A handler is modelled as a
function from the decoded envelope to `(optional response, optional error)`;
the ambient Go context is threaded through the concrete handler models as
explicit parameters instead. -/

abbrev HandlerF := Message → Option Message × Option String

/-- The registry map; `Register` overwrites, so lookup takes the newest
binding first. -/
abbrev HandlerRegistry := List (String × HandlerF)

def lookupHandler : HandlerRegistry → String → Option HandlerF
  | [], _ => none
  | kv :: rest, t => if kv.1 = t then some kv.2 else lookupHandler rest t

def HandlerRegistry.register (reg : HandlerRegistry) (t : String) (h : HandlerF) :
    HandlerRegistry :=
  (t, h) :: reg

/-- `DefaultHandlerRegistry.Handle`: look the type up; with no handler
registered the error is `errors.New("")` and there is no response. -/
def HandlerRegistry.handle (reg : HandlerRegistry) (m : Message) :
    Option Message × Option String :=
  match lookupHandler reg m.type with
  | none => (none, some "")
  | some h => h m

/-- One text-frame iteration of `Connection.readPump`: unmarshal the
envelope (on failure log and continue), route it, and if the handler
returned a response, marshal it and `Send` it back on the same connection.
The result is the response frame enqueued to the sender, if any; every
`continue` branch produces `none`. -/
def processFrame (reg : HandlerRegistry) (raw : Frame) : Option Frame :=
  match parseJson raw with
  | none => none
  | some j =>
    match decodeMessage j with
    | none => none
    | some msg =>
      match reg.handle msg with
      | (_, some _) => none
      | (none, none) => none
      | (some resp, none) => some (encodeMessage resp).render

/-! ### Hub (`hub.Hub`)

A registered peer client (`transport.Client`) is an id plus its Connection.
The hub owns the registry (`sync.Map`, modelled as an association list with
unique keys), the four bounded producer queues, the worker context
(`h.ctx`, which is a nil interface until `Start` runs), and the statistics
counters.  Queue capacities come from `hub.New`: register 100, unregister
100, broadcast 1000, sendTo 1000. -/

structure HubClient where
  id : String
  conn : Connection
deriving DecidableEq

def registerQueueCap : Nat := 100
def unregisterQueueCap : Nat := 100
def broadcastQueueCap : Nat := 1000
def sendToQueueCap : Nat := 1000

structure Hub where
  clients : List (String × HubClient)
  /-- `h.ctx != nil`: true once `Start` has assigned the worker context. -/
  ctxInitialized : Bool
  /-- the worker context has been cancelled (`Stop`) -/
  ctxDone : Bool
  registerQ : List HubClient
  unregisterQ : List String
  broadcastQ : List Frame
  sendToQ : List (String × Frame)
  messagesSent : Int
  messagesReceived : Int
deriving DecidableEq

/-- `hub.New`: queues allocated, context still the nil interface. -/
def Hub.new : Hub :=
  { clients := [], ctxInitialized := false, ctxDone := false,
    registerQ := [], unregisterQ := [], broadcastQ := [], sendToQ := [],
    messagesSent := 0, messagesReceived := 0 }

/-- `hub.Start`: assigns `h.ctx, h.cancel` and launches the worker. -/
def Hub.start (h : Hub) : Hub := { h with ctxInitialized := true }

/-- Outcome of a producer method (`Register`, `Unregister`, `Broadcast`,
`SendTo`).  Before `Start`, evaluating `h.ctx.Done()` in the `select`
dereferences a nil interface and panics. -/
inductive ProducerResult where
  | panicked
  | enqueued
  /-- `hub context cancelled during ...` -/
  | errCancelled
  /-- `... channel is full` -/
  | errFull
deriving DecidableEq

/-- `hub.Register` (producer side): non-blocking select over the register
queue, the worker context, and `default`. -/
def Hub.registerProducer (h : Hub) (client : HubClient) : ProducerResult × Hub :=
  if !h.ctxInitialized then (.panicked, h)
  else if h.registerQ.length < registerQueueCap && !h.ctxDone then
    (.enqueued, { h with registerQ := h.registerQ ++ [client] })
  else if h.ctxDone then (.errCancelled, h)
  else (.errFull, h)

/-- `hub.Unregister` (producer side). -/
def Hub.unregisterProducer (h : Hub) (clientID : String) : ProducerResult × Hub :=
  if !h.ctxInitialized then (.panicked, h)
  else if h.unregisterQ.length < unregisterQueueCap && !h.ctxDone then
    (.enqueued, { h with unregisterQ := h.unregisterQ ++ [clientID] })
  else if h.ctxDone then (.errCancelled, h)
  else (.errFull, h)

/-- `hub.Broadcast` (producer side); incidentally bumps `messagesReceived`. -/
def Hub.broadcastProducer (h : Hub) (message : Frame) : ProducerResult × Hub :=
  if !h.ctxInitialized then (.panicked, h)
  else if h.broadcastQ.length < broadcastQueueCap && !h.ctxDone then
    (.enqueued, { h with broadcastQ := h.broadcastQ ++ [message],
                         messagesReceived := h.messagesReceived + 1 })
  else if h.ctxDone then (.errCancelled, h)
  else (.errFull, h)

/-- `hub.SendTo` (producer side); incidentally bumps `messagesReceived`. -/
def Hub.sendToProducer (h : Hub) (clientID : String) (message : Frame) :
    ProducerResult × Hub :=
  if !h.ctxInitialized then (.panicked, h)
  else if h.sendToQ.length < sendToQueueCap && !h.ctxDone then
    (.enqueued, { h with sendToQ := h.sendToQ ++ [(clientID, message)],
                         messagesReceived := h.messagesReceived + 1 })
  else if h.ctxDone then (.errCancelled, h)
  else (.errFull, h)

def lookupKey (k : String) : List (String × HubClient) → Option HubClient
  | [] => none
  | kv :: rest => if kv.1 = k then some kv.2 else lookupKey k rest

def updateKey (k : String) (v : HubClient) (l : List (String × HubClient)) :
    List (String × HubClient) :=
  l.map (fun kv => if kv.1 = k then (k, v) else kv)

/-- `hub.handleRegister` (worker side): a duplicate id is logged and
dropped; otherwise the client is stored. -/
def Hub.handleRegister (h : Hub) (client : HubClient) : Hub :=
  if (lookupKey client.id h.clients).isSome then h
  else { h with clients := h.clients ++ [(client.id, client)] }

/-- `hub.handleUnregister` (worker side): if present, remove the entry and
close the client's Connection. -/
def Hub.handleUnregister (h : Hub) (clientID : String) : Hub :=
  match lookupKey clientID h.clients with
  | none => h
  | some _ =>
    { h with clients :=
        (h.clients.filter (fun kv => kv.1 ≠ clientID)) }

/-- `hub.handleSendTo` (worker side): look the target up; if absent log and
drop; else `Send` on its Connection under a fresh 5-second context (not yet
cancelled when the call is made).  Success bumps `messagesSent`. -/
def Hub.handleSendTo (h : Hub) (clientID : String) (message : Frame) : Hub :=
  match lookupKey clientID h.clients with
  | none => h
  | some cl =>
    let res := cl.conn.send false message
    let clients2 := updateKey clientID { cl with conn := res.2 } h.clients
    if res.1 = .ok then
      { h with clients := clients2, messagesSent := h.messagesSent + 1 }
    else { h with clients := clients2 }

/-- `hub.handleBroadcast` (worker side): `Send` to every registered client;
per-recipient failures do not abort the fanout. -/
def Hub.handleBroadcast (h : Hub) (message : Frame) : Hub :=
  let step := fun (acc : List (String × HubClient) × Int) (kv : String × HubClient) =>
    let res := kv.2.conn.send false message
    (acc.1 ++ [(kv.1, { kv.2 with conn := res.2 })],
     if res.1 = .ok then acc.2 + 1 else acc.2)
  let r := h.clients.foldl step ([], 0)
  { h with clients := r.1, messagesSent := h.messagesSent + r.2 }

/-- `hub.Stop`: cancel the worker context, wait for the worker, then close
every remaining client's Connection and close the four queues.  The
`clients` map is not cleared. -/
def Hub.stop (h : Hub) : Hub :=
  { h with ctxDone := true,
           clients := h.clients.map (fun kv => (kv.1, { kv.2 with conn := kv.2.conn.close })) }

/-- `hub.getClientCount`: number of entries the `Range` over `h.clients`
visits. -/
def Hub.getClientCount (h : Hub) : Nat := h.clients.length

structure HubStats where
  connectedClients : Nat
  messagesSent : Int
  messagesReceived : Int
deriving DecidableEq

/-- `hub.GetStats` (uptime, a wall-clock quantity, is not modelled). -/
def Hub.getStats (h : Hub) : HubStats :=
  { connectedClients := h.getClientCount,
    messagesSent := h.messagesSent,
    messagesReceived := h.messagesReceived }

/-! ### Signaling handlers (`signal` package)

`RegisterRequestHandler.Handle` unmarshals the request, pulls the Connection
out of the ambient context, wraps it in a client, registers it with the hub,
and on success answers with a `RegisterResponse`.  Whether a Connection is
in the context, the fresh `xid` for the response and the current time are
explicit parameters here. -/

def RegisterRequestHandler.handle (hasConn : Bool) (registerErr : Bool)
    (respID now : String) (msg : Message) : Option Message × Option String :=
  match registerClientID msg.data with
  | none => (none, some "failed to unmarshal register request")
  | some clientID =>
    if !hasConn then (none, some "connection not found")
    else if registerErr then (none, some "failed to register client")
    else
      let respData : Json :=
        .obj [("client_id", .str clientID), ("success", .bool true)]
      (some ⟨respID, MessageTypeRegisterResponse, now, respData⟩, none)

/-- `SDPHandler.Handle`: unmarshal the payload into `domain.SDPMessage` (on
failure, error out forwarding nothing), re-marshal the decoded envelope
(`json.Marshal(message)`), and hand the re-encoded bytes to
`hub.SendTo(sdpMsg.ToID, m)`.  Returns no response envelope. -/
def SDPHandler.handle (h : Hub) (msg : Message) :
    (Option Message × Option String) × Hub :=
  match decodeSDPMessage msg.data with
  | none => ((none, some "failed to unmarshal SDP message"), h)
  | some sdpMsg =>
    let m := (encodeMessage msg).render
    let r := h.sendToProducer sdpMsg.toID m
    if r.1 = .enqueued then ((none, none), r.2)
    else ((none, some "failed to send SDP message"), r.2)

/-- `ICECandidateHandler.Handle`: the same relay flow, but the payload must
unmarshal into `domain.ICECandidateMessage`. -/
def ICECandidateHandler.handle (h : Hub) (msg : Message) :
    (Option Message × Option String) × Hub :=
  match decodeICECandidateMessage msg.data with
  | none => ((none, some "failed to unmarshal ICE candidate message"), h)
  | some iceMsg =>
    let m := (encodeMessage msg).render
    let r := h.sendToProducer iceMsg.toID m
    if r.1 = .enqueued then ((none, none), r.2)
    else ((none, some "failed to send ICE candidate"), r.2)

/-- `DataChannelHandler.Handle`: the same relay flow, but the payload must
unmarshal into `domain.DataChannelMessage`. -/
def DataChannelHandler.handle (h : Hub) (msg : Message) :
    (Option Message × Option String) × Hub :=
  match decodeDataChannelMessage msg.data with
  | none => ((none, some "failed to unmarshal data channel message"), h)
  | some dcMsg =>
    let m := (encodeMessage msg).render
    let r := h.sendToProducer dcMsg.toID m
    if r.1 = .enqueued then ((none, none), r.2)
    else ((none, some "failed to send data channel message"), r.2)

/-! ### Configuration (`internal/config`) -/

structure ICEServer where
  urls : List String
  username : String
  credential : String
deriving DecidableEq

structure ServerConfig where
  host : String
  port : Int
  /-- `time.Duration`, in nanoseconds -/
  readTimeout : Int
  writeTimeout : Int
  idleTimeout : Int
deriving DecidableEq

structure LoggingConfig where
  level : String
  format : String
deriving DecidableEq

structure Config where
  server : ServerConfig
  iceServers : List ICEServer
  logging : LoggingConfig
deriving DecidableEq

structure ConfigError where
  field : String
  message : String
deriving DecidableEq

/-- `config.Default()`. -/
def Config.default : Config :=
  { server := { host := "localhost", port := 3000,
                readTimeout := 30 * 1000000000, writeTimeout := 30 * 1000000000,
                idleTimeout := 120 * 1000000000 },
    iceServers := [{ urls := ["stun:stun.l.google.com:19302"],
                     username := "", credential := "" }],
    logging := { level := "info", format := "json" } }

/-- `Config.Validate`, clause for clause. -/
def Config.validate (c : Config) : Option ConfigError :=
  if c.server.port ≤ 0 || c.server.port > 65535 then
    some ⟨"server.port", "invalid port number"⟩
  else if c.server.readTimeout < 0 then
    some ⟨"server.read_timeout", "timeout cannot be negative"⟩
  else if c.server.writeTimeout < 0 then
    some ⟨"server.write_timeout", "timeout cannot be negative"⟩
  else if c.iceServers.length = 0 then
    some ⟨"webrtc.ice_servers", "at least one ICE server is required"⟩
  else none

/-! ## Shared lemmas -/

set_option maxRecDepth 10000

theorem close_sets_closed (c : Connection) : c.close.closed = true := by
  by_cases h : c.closed <;> simp [Connection.close, h]

theorem lookupKey_append_self (k : String) (v : HubClient)
    (l : List (String × HubClient)) (h : lookupKey k l = none) :
    lookupKey k (l ++ [(k, v)]) = some v := by
  induction l with
  | nil => simp [lookupKey]
  | cons kv rest ih =>
    by_cases hk : kv.1 = k
    · simp [lookupKey, hk] at h
    · simp only [List.cons_append, lookupKey, hk, if_neg] at h ⊢
      exact ih h

theorem lookupKey_updateKey (k : String) (v : HubClient)
    (l : List (String × HubClient)) (h : (lookupKey k l).isSome = true) :
    lookupKey k (updateKey k v l) = some v := by
  induction l with
  | nil => simp [lookupKey] at h
  | cons kv rest ih =>
    by_cases hk : kv.1 = k
    · simp [lookupKey, updateKey, hk]
    · have h2 : (lookupKey k rest).isSome = true := by simpa [lookupKey, hk] using h
      simpa [lookupKey, updateKey, hk] using ih h2

theorem decodeMessage_encodeMessage (m : Message)
    (hts : isValidRFC3339 m.timestamp = true) :
    decodeMessage (encodeMessage m) = some m := by
  simp [decodeMessage, encodeMessage, getStrField, getTimestampField,
    getDataField, lookupLast, hts]

/-! ## Claims -/

/-- C3: registering the same client twice leaves the hub in the same
observable state as registering it once — the second registration of an
already-present id is a no-op (logged and dropped), so the stored client
object is unchanged. -/
theorem register_duplicate_is_noop (h : Hub) (c : HubClient) :
    (h.handleRegister c).handleRegister c = h.handleRegister c ∧
    ((lookupKey c.id h.clients).isSome = true → h.handleRegister c = h) := by
  constructor
  · by_cases hp : (lookupKey c.id h.clients).isSome = true
    · simp [Hub.handleRegister, hp]
    · have hn : lookupKey c.id h.clients = none := by
        cases hl : lookupKey c.id h.clients with
        | none => rfl
        | some v => simp [hl] at hp
      have h1 : h.handleRegister c
          = { h with clients := h.clients ++ [(c.id, c)] } := by
        simp [Hub.handleRegister, hn]
      rw [h1]
      simp [Hub.handleRegister, lookupKey_append_self c.id c h.clients hn]
  · intro hp
    simp [Hub.handleRegister, hp]

def dupClient : HubClient := ⟨"carol", Connection.new⟩

def dupHub : Hub := (Hub.new.start).handleRegister dupClient

/-- Witness for C3 at a concrete hub that already holds the client. -/
theorem register_duplicate_is_noop_witness :
    dupHub.handleRegister dupClient = dupHub :=
  (register_duplicate_is_noop dupHub dupClient).2 (by decide)

/-- C4: once `Close()` has returned, every subsequent `Send` on the
connection fails with the Closed error and changes nothing — in particular
no frame is enqueued on the send queue. -/
theorem send_after_close_fails (c : Connection) (callerCtxDone : Bool)
    (message : Frame) :
    c.close.send callerCtxDone message = (.errClosed, c.close) := by
  simp [Connection.send, close_sets_closed c]

/-- C8: `Send` on an open connection whose 256-slot send queue is full
returns the QueueFull error immediately and leaves the connection state —
queue contents and closed flag — untouched. -/
theorem send_queue_full_no_mutation (c : Connection) (message : Frame)
    (hopen : c.closed = false) (hctx : c.ctxDone = false)
    (hfull : c.sendChan.length = sendChanCapacity) :
    c.send false message = (.errQueueFull, c) := by
  simp [Connection.send, hopen, hctx, hfull]

def fullConn : Connection :=
  { closed := false, ctxDone := false, chanClosed := false,
    sendChan := List.replicate 256 "frame" }

/-- Witness for C8 on a connection with 256 queued frames. -/
theorem send_queue_full_no_mutation_witness :
    fullConn.send false "extra" = (.errQueueFull, fullConn) :=
  send_queue_full_no_mutation fullConn "extra" rfl rfl
    (by simp [fullConn, sendChanCapacity])

/-- C10: on a hub from `New` on which `Start` has not run, every producer
method panics (the `select` evaluates `h.ctx.Done()` on a nil context
interface) instead of returning an error. -/
theorem producers_panic_before_start (h : Hub)
    (hn : h.ctxInitialized = false) :
    ∀ (c : HubClient) (id : String) (message : Frame),
      (h.registerProducer c).1 = .panicked ∧
      (h.unregisterProducer id).1 = .panicked ∧
      (h.broadcastProducer message).1 = .panicked ∧
      (h.sendToProducer id message).1 = .panicked := by
  intro c id message
  simp [Hub.registerProducer, Hub.unregisterProducer, Hub.broadcastProducer,
    Hub.sendToProducer, hn]

/-- Witness for C10 on `Hub.new` itself. -/
theorem producers_panic_before_start_witness :
    (Hub.new.registerProducer ⟨"a", Connection.new⟩).1 = .panicked ∧
    (Hub.new.unregisterProducer "a").1 = .panicked ∧
    (Hub.new.broadcastProducer "m").1 = .panicked ∧
    (Hub.new.sendToProducer "a" "m").1 = .panicked :=
  producers_panic_before_start Hub.new rfl ⟨"a", Connection.new⟩ "a" "m"

/-- C5 (amended): after `Stop` returns, every client registered at the time
of the call has had its Connection closed, but the registry is not cleared,
so `GetStats` reports the pre-stop client count — not 0. -/
theorem stop_closes_all_but_keeps_registry (h : Hub) :
    (∀ kv ∈ h.stop.clients, kv.2.conn.closed = true) ∧
    h.stop.getStats.connectedClients = h.getClientCount := by
  constructor
  · intro kv hkv
    simp only [Hub.stop, List.mem_map] at hkv
    obtain ⟨x, _, hx⟩ := hkv
    rw [← hx]
    exact close_sets_closed x.2.conn
  · simp [Hub.stop, Hub.getStats, Hub.getClientCount]

def stopDemoHub : Hub := (Hub.new.start).handleRegister ⟨"alice", Connection.new⟩

/-- C5 counterexample: with one registered peer, the stats after `Stop`
still report that peer, refuting `connected_clients == 0`. -/
theorem stop_stats_not_zero :
    stopDemoHub.stop.getStats.connectedClients = 1 ∧
    stopDemoHub.stop.getStats.connectedClients ≠ 0 := by decide

/-- Witness for C5 at the one-peer hub. -/
theorem stop_closes_all_but_keeps_registry_witness :
    (("alice", (⟨"alice", Connection.new.close⟩ : HubClient)) :
        String × HubClient).2.conn.closed = true ∧
    stopDemoHub.stop.getStats.connectedClients = stopDemoHub.getClientCount :=
  ⟨(stop_closes_all_but_keeps_registry stopDemoHub).1
      ("alice", ⟨"alice", Connection.new.close⟩) (by decide),
   (stop_closes_all_but_keeps_registry stopDemoHub).2⟩

/-- C9 (amended): validation accepts `server.port` exactly when it lies in
1–65535 and rejects negative `read_timeout` and `write_timeout` (given a
non-empty ICE server list), but it never examines `idle_timeout`. -/
theorem validate_characterization (c : Config) :
    c.validate = none ↔
      (1 ≤ c.server.port ∧ c.server.port ≤ 65535 ∧
       0 ≤ c.server.readTimeout ∧ 0 ≤ c.server.writeTimeout ∧
       c.iceServers ≠ []) := by
  unfold Config.validate
  split_ifs with h1 h2 h3 h4 <;>
    simp_all [not_or, List.length_eq_zero] <;> omega

/-- Witness for C9 on the default configuration. -/
theorem validate_characterization_witness : Config.default.validate = none :=
  (validate_characterization Config.default).mpr (by decide)

def negIdleConfig : Config :=
  { Config.default with
      server := { Config.default.server with idleTimeout := -1 } }

/-- C9 counterexample: a configuration whose `idle_timeout` is negative (and
is otherwise the default) passes validation, refuting the rejection of
negative `idle_timeout`. -/
theorem validate_accepts_negative_idle :
    negIdleConfig.validate = none ∧ negIdleConfig.server.idleTimeout < 0 := by
  decide

/-- C6: for every well-formed envelope (its timestamp text is one the
`time.Time` unmarshaller accepts; its payload is a JSON value, which is what
makes encoding total), decoding the encoding gives back the very same
envelope. -/
theorem decode_encode_roundtrip (m : Message)
    (hts : isValidRFC3339 m.timestamp = true) :
    decodeMessage (encodeMessage m) = some m :=
  decodeMessage_encodeMessage m hts

def roundtripMsg : Message :=
  ⟨"m7", MessageTypeDataChannel, "2025-06-30T12:00:00.25+09:00",
    Json.obj [("from_id", .str "alice"), ("to_id", .str "bob"),
              ("label", .str "chat"), ("payload", .str "aGk=")]⟩

/-- Witness for C6 on a concrete data-channel envelope. -/
theorem decode_encode_roundtrip_witness :
    isValidRFC3339 roundtripMsg.timestamp = true ∧
    decodeMessage (encodeMessage roundtripMsg) = some roundtripMsg :=
  ⟨by decide, decode_encode_roundtrip roundtripMsg (by decide)⟩

/-- C7: when a decoded envelope's type has no registered handler, the
registry returns no response and the (empty-text) lookup-failure error, and
the read pump drops the envelope: no response frame is sent back. -/
theorem unknown_type_is_dropped (reg : HandlerRegistry) (raw : Frame)
    (j : Json) (m : Message)
    (hp : parseJson raw = some j) (hd : decodeMessage j = some m)
    (hh : lookupHandler reg m.type = none) :
    reg.handle m = (none, some "") ∧ processFrame reg raw = none := by
  refine ⟨?_, ?_⟩
  · simp [HandlerRegistry.handle, hh]
  · simp [processFrame, hp, hd, HandlerRegistry.handle, hh]

def unknownRaw : Frame :=
  "\x7b\"id\":\"u1\",\"type\":\"mystery\",\"timestamp\":\"2024-01-02T03:04:05Z\",\"data\":null\x7d"

def unknownJson : Json :=
  .obj [("id", .str "u1"), ("type", .str "mystery"),
        ("timestamp", .str "2024-01-02T03:04:05Z"), ("data", .null)]

def unknownMsg : Message := ⟨"u1", "mystery", "2024-01-02T03:04:05Z", .null⟩

/-- Witness for C7: an envelope of type `mystery` against an empty registry. -/
theorem unknown_type_is_dropped_witness :
    HandlerRegistry.handle [] unknownMsg = (none, some "") ∧
    processFrame [] unknownRaw = none :=
  unknown_type_is_dropped [] unknownRaw unknownJson unknownMsg rfl rfl rfl

/-- C2 (amended): when registration fails, the handler returns no response
envelope at all — only an error — so the sender receives no
RegisterResponse frame (failure is silent at the protocol level). -/
theorem register_failure_yields_no_response (hasConn : Bool)
    (respID now : String) (raw : Frame) (j : Json) (m : Message) (cid : String)
    (hc : hasConn = true)
    (hcid : registerClientID m.data = some cid)
    (hp : parseJson raw = some j) (hd : decodeMessage j = some m) :
    RegisterRequestHandler.handle hasConn true respID now m
      = (none, some "failed to register client") ∧
    processFrame [(m.type, RegisterRequestHandler.handle hasConn true respID now)]
      raw = none := by
  have hh : RegisterRequestHandler.handle hasConn true respID now m
      = (none, some "failed to register client") := by
    simp [RegisterRequestHandler.handle, hcid, hc]
  refine ⟨hh, ?_⟩
  simp [processFrame, hp, hd, HandlerRegistry.handle, lookupHandler, hh]

def regFailMsg : Message :=
  ⟨"r1", MessageTypeRegisterRequest, "2024-01-02T03:04:05Z",
    Json.obj [("client_id", .str "alice")]⟩

def regFailRaw : Frame :=
  "\x7b\"id\":\"r1\",\"type\":\"register_request\",\"timestamp\":\"2024-01-02T03:04:05Z\",\"data\":\x7b\"client_id\":\"alice\"\x7d\x7d"

def regFailJson : Json :=
  .obj [("id", .str "r1"), ("type", .str "register_request"),
        ("timestamp", .str "2024-01-02T03:04:05Z"),
        ("data", .obj [("client_id", .str "alice")])]

/-- C2 counterexample: with a Connection in context and a well-formed
request, a failing `hub.Register` makes the handler return `nil` response
plus an error — not a RegisterResponse with `success=false`. -/
theorem register_failure_response_is_none :
    RegisterRequestHandler.handle true true "resp1" "2024-01-02T03:04:06Z"
      regFailMsg = (none, some "failed to register client") := rfl

/-- Witness for C2 at the concrete failing registration. -/
theorem register_failure_yields_no_response_witness :
    RegisterRequestHandler.handle true true "resp2" "2024-01-02T03:04:07Z"
      regFailMsg = (none, some "failed to register client") ∧
    processFrame
      [(regFailMsg.type,
        RegisterRequestHandler.handle true true "resp2" "2024-01-02T03:04:07Z")]
      regFailRaw = none :=
  register_failure_yields_no_response true "resp2" "2024-01-02T03:04:07Z"
    regFailRaw regFailJson regFailMsg "alice" rfl rfl rfl rfl

/-- The bytes an inbound SDP frame turns into on its way to `hub.SendTo`:
the read pump unmarshals the envelope, the SDP handler unmarshals the
payload into `domain.SDPMessage`, and on success re-marshals the decoded
envelope (`json.Marshal(message)`) before forwarding. -/
def relayForwardedBytes (raw : Frame) : Option Frame :=
  match parseJson raw with
  | none => none
  | some j =>
    match decodeMessage j with
    | none => none
    | some m =>
      match decodeSDPMessage m.data with
      | none => none
      | some _ => some (encodeMessage m).render

def sdpRaw : Frame :=
  "\x7b\"type\":\"sdp\",\"id\":\"m1\",\"timestamp\":\"2024-01-02T03:04:05Z\",\"data\":\x7b\"from_id\":\"alice\",\"to_id\":\"bob\"\x7d\x7d"

/-- C1 counterexample: an SDP envelope whose fields arrive in a
non-canonical order is forwarded, but the forwarded bytes are the
re-marshalled envelope, not the sender's original byte sequence. -/
theorem relay_not_verbatim :
    (relayForwardedBytes sdpRaw).isSome = true ∧
    relayForwardedBytes sdpRaw ≠ some sdpRaw := by decide

/-- The hub state after a relay handler's successful `hub.SendTo` enqueue of
the re-encoded envelope for `toID`. -/
def relayEnqueuedHub (h : Hub) (toID : String) (m : Message) : Hub :=
  { h with sendToQ := h.sendToQ ++ [(toID, (encodeMessage m).render)],
           messagesReceived := h.messagesReceived + 1 }

/-- C1 (amended): a relay envelope of type sdp, candidate or data_channel
whose payload unmarshals into the respective handler's message struct,
addressed (`to_id`) to a registered peer with an open, non-saturated
Connection, is forwarded as the re-encoding of the decoded envelope: the
handler emits no response and no error, `(toID, encode(m))` is enqueued for
the hub worker, the worker delivers exactly those bytes to the peer's send
queue, and decoding the forwarded envelope yields the sender's envelope —
id, type, timestamp and payload values are preserved even though the byte
sequence may differ from the sender's. -/
theorem relay_forwards_reencoded_envelope (h : Hub) (m : Message)
    (toID : String) (cl : HubClient)
    (hctx : h.ctxInitialized = true) (hdone : h.ctxDone = false)
    (hq : h.sendToQ.length < sendToQueueCap)
    (hts : isValidRFC3339 m.timestamp = true)
    (hcl : lookupKey toID h.clients = some cl)
    (hopen : cl.conn.closed = false) (hcctx : cl.conn.ctxDone = false)
    (hroom : cl.conn.sendChan.length < sendChanCapacity) :
    ((∃ p, decodeSDPMessage m.data = some p ∧ p.toID = toID) →
       SDPHandler.handle h m = ((none, none), relayEnqueuedHub h toID m)) ∧
    ((∃ p, decodeICECandidateMessage m.data = some p ∧ p.toID = toID) →
       ICECandidateHandler.handle h m
         = ((none, none), relayEnqueuedHub h toID m)) ∧
    ((∃ p, decodeDataChannelMessage m.data = some p ∧ p.toID = toID) →
       DataChannelHandler.handle h m
         = ((none, none), relayEnqueuedHub h toID m)) ∧
    (relayEnqueuedHub h toID m).sendToQ
      = h.sendToQ ++ [(toID, (encodeMessage m).render)] ∧
    lookupKey toID
        ((relayEnqueuedHub h toID m).handleSendTo toID
          (encodeMessage m).render).clients
      = some { cl with conn :=
          { cl.conn with
              sendChan := cl.conn.sendChan ++ [(encodeMessage m).render] } } ∧
    decodeMessage (encodeMessage m) = some m := by
  have hsend : cl.conn.send false ((encodeMessage m).render)
      = (.ok, { cl.conn with
          sendChan := cl.conn.sendChan ++ [(encodeMessage m).render] }) := by
    simp [Connection.send, hopen, hcctx, hroom]
  refine ⟨?_, ?_, ?_, by simp [relayEnqueuedHub], ?_,
    decodeMessage_encodeMessage m hts⟩
  · rintro ⟨p, hp, hpto⟩
    simp [SDPHandler.handle, hp, hpto, Hub.sendToProducer, hctx, hdone, hq,
      relayEnqueuedHub]
  · rintro ⟨p, hp, hpto⟩
    simp [ICECandidateHandler.handle, hp, hpto, Hub.sendToProducer, hctx,
      hdone, hq, relayEnqueuedHub]
  · rintro ⟨p, hp, hpto⟩
    simp [DataChannelHandler.handle, hp, hpto, Hub.sendToProducer, hctx,
      hdone, hq, relayEnqueuedHub]
  · simp only [relayEnqueuedHub, Hub.handleSendTo, hcl, hsend]
    simp only [reduceIte]
    exact lookupKey_updateKey toID _ h.clients (by simp [hcl])

def relayHub : Hub := (Hub.new.start).handleRegister ⟨"bob", Connection.new⟩

def sdpDemoMsg : Message :=
  ⟨"m1", MessageTypeSDP, "2024-01-02T03:04:05Z",
    Json.obj [("from_id", .str "alice"), ("to_id", .str "bob")]⟩

/-- Witness for C1: a concrete hub with `bob` registered and a concrete
envelope from `alice` whose payload all three handlers' structs accept. -/
theorem relay_forwards_reencoded_envelope_witness :
    SDPHandler.handle relayHub sdpDemoMsg
      = ((none, none), relayEnqueuedHub relayHub "bob" sdpDemoMsg) ∧
    ICECandidateHandler.handle relayHub sdpDemoMsg
      = ((none, none), relayEnqueuedHub relayHub "bob" sdpDemoMsg) ∧
    DataChannelHandler.handle relayHub sdpDemoMsg
      = ((none, none), relayEnqueuedHub relayHub "bob" sdpDemoMsg) ∧
    (relayEnqueuedHub relayHub "bob" sdpDemoMsg).sendToQ
      = relayHub.sendToQ ++ [("bob", (encodeMessage sdpDemoMsg).render)] ∧
    lookupKey "bob"
        ((relayEnqueuedHub relayHub "bob" sdpDemoMsg).handleSendTo "bob"
          (encodeMessage sdpDemoMsg).render).clients
      = some { id := "bob", conn :=
          { Connection.new with
              sendChan :=
                Connection.new.sendChan
                  ++ [(encodeMessage sdpDemoMsg).render] } } ∧
    decodeMessage (encodeMessage sdpDemoMsg) = some sdpDemoMsg := by
  have T := relay_forwards_reencoded_envelope relayHub sdpDemoMsg "bob"
    ⟨"bob", Connection.new⟩ rfl rfl (by decide) (by decide) rfl rfl rfl
    (by decide)
  exact ⟨T.1 ⟨⟨"alice", "bob", ⟨"", ""⟩⟩, rfl, rfl⟩,
    T.2.1 ⟨⟨"alice", "bob", ⟨"", none, none, none⟩⟩, rfl, rfl⟩,
    T.2.2.1 ⟨⟨"alice", "bob", "", []⟩, rfl, rfl⟩,
    T.2.2.2.1, T.2.2.2.2.1, T.2.2.2.2.2⟩

end Conic
